import Mathlib

/-!
Shallow embedding of the PrivX Python SDK authentication API
(source file src/privx_api/auth.py).

The authentication API class builds one HTTP request per method call,
hands it to the underlying transport, and wraps the reply into a
response envelope.  The base HTTP layer (base.py), the response
envelope (response.py), the URL enumeration (enums.py) and the helper
module (utils.py) are not part of the given source tree; the
definitions below that stand for them are marked as modelled from the
specification.
-/

namespace PrivX

/-- A Python dictionary of scalar values, as used for path parameters,
query parameters and JSON bodies. -/
abbrev Dict := List (String × String)

/-- HTTP verbs used by the SDK methods. -/
inductive Verb
  | get
  | post
  | put
  | delete
deriving DecidableEq, Repr, Inhabited

/-- One HTTP request as assembled by the base layer: verb, URL template,
substituted path parameters, query parameters and optional JSON body. -/
structure HttpRequest where
  verb : Verb
  url : String
  path_params : Dict
  query_params : Dict
  body : Option Dict
deriving DecidableEq, Repr, Inhabited

/-- One reply of the underlying transport: the HTTP status code and the
decoded payload. -/
structure HttpReply where
  status : Nat
  data : Dict
deriving DecidableEq, Repr

/-- The underlying transport: it maps a request to a reply, or fails with
an exception carrying an error message. -/
abbrev Transport := HttpRequest → Except String HttpReply

namespace HTTPStatus

/-- http.HTTPStatus.OK. -/
def OK : Nat := 200

/-- http.HTTPStatus.CREATED. -/
def CREATED : Nat := 201

end HTTPStatus

namespace UrlEnum.AUTH

/-- Modelled from the spec: enums.py is not under src/; each member of
UrlEnum.AUTH is a fixed URL template of one operation, modelled as a
distinct string. -/
def STATUS : String := "auth.status"

/-- Modelled from the spec: fixed URL template, see STATUS. -/
def IDP_CLIENT : String := "auth.idp-client"

/-- Modelled from the spec: fixed URL template, see STATUS. -/
def IDP_CLIENTS : String := "auth.idp-clients"

/-- Modelled from the spec: fixed URL template, see STATUS. -/
def REGENERATE_IDP_CLIENT : String := "auth.regenerate-idp-client"

/-- Modelled from the spec: fixed URL template, see STATUS. -/
def USER_SESSIONS : String := "auth.user-sessions"

/-- Modelled from the spec: fixed URL template, see STATUS. -/
def SOURCE_SESSIONS : String := "auth.source-sessions"

/-- Modelled from the spec: fixed URL template, see STATUS. -/
def SEARCH_SESSIONS : String := "auth.search-sessions"

/-- Modelled from the spec: fixed URL template, see STATUS. -/
def TERMINATE_SESSION : String := "auth.terminate-session"

/-- Modelled from the spec: fixed URL template, see STATUS. -/
def TERMINATE_USER_SESSIONS : String := "auth.terminate-user-sessions"

/-- Modelled from the spec: fixed URL template, see STATUS. -/
def LOGOUT : String := "auth.logout"

/-- Modelled from the spec: fixed URL template used by the internal
authentication call of the base layer, see STATUS. -/
def LOGIN : String := "auth.login"

end UrlEnum.AUTH

/-- Modelled from the spec: response.py is not under src/.  Per the spec
the response envelope is "a record holding (a) the transport-level status
code, (b) an expected/success status code for the operation, and (c) a
decoded payload". -/
structure PrivXAPIResponse where
  status : Nat
  expected_status : Nat
  data : Dict
deriving DecidableEq, Repr

/-- Modelled from the spec: the client object a method call starts from
(base.py is not under src/).  Per the spec it carries "no shared mutable
state across calls beyond whatever connection reuse the underlying HTTP
transport provides", so its only component is the transport. -/
structure AuthAPI where
  transport : Transport

/-- The observable outcome of one method call: the HTTP requests issued to
the transport in order, the lines written to standard output, and either
the value the method returns (an envelope, or nothing for authenticate) or
the exception it propagates. -/
structure MethodResult where
  requests : List HttpRequest
  printed : List (Nat × Dict)
  outcome : Except String (Option PrivXAPIResponse)
deriving Repr

/-- Modelled from the spec: BasePrivXAPI._http_get (base.py is not under
src/).  "Each operation corresponds to one HTTP request": the helper
assembles the GET request from the URL template, path parameters and query
parameters, sends it once, and either yields the reply or raises. -/
def _http_get (self : AuthAPI) (url : String) (path_params query_params : Dict) :
    HttpRequest × Except String HttpReply :=
  let req : HttpRequest := ⟨Verb.get, url, path_params, query_params, none⟩
  (req, self.transport req)

/-- Modelled from the spec: BasePrivXAPI._http_post (base.py is not under
src/), as _http_get but with verb POST and an optional JSON body. -/
def _http_post (self : AuthAPI) (url : String) (path_params query_params : Dict)
    (body : Option Dict) : HttpRequest × Except String HttpReply :=
  let req : HttpRequest := ⟨Verb.post, url, path_params, query_params, body⟩
  (req, self.transport req)

/-- Modelled from the spec: BasePrivXAPI._http_put (base.py is not under
src/), as _http_get but with verb PUT and a JSON body. -/
def _http_put (self : AuthAPI) (url : String) (path_params : Dict) (body : Dict) :
    HttpRequest × Except String HttpReply :=
  let req : HttpRequest := ⟨Verb.put, url, path_params, [], some body⟩
  (req, self.transport req)

/-- Modelled from the spec: BasePrivXAPI._http_delete (base.py is not
under src/), as _http_get but with verb DELETE. -/
def _http_delete (self : AuthAPI) (url : String) (path_params : Dict) :
    HttpRequest × Except String HttpReply :=
  let req : HttpRequest := ⟨Verb.delete, url, path_params, [], none⟩
  (req, self.transport req)

/-- Modelled from the spec: BasePrivXAPI._authenticate (base.py is not
under src/).  "Authentication failures ... are surfaced via an exception
raised by the internal request layer": the helper sends the credentials in
a single request and either succeeds or raises. -/
def _authenticate (self : AuthAPI) (username password : String) :
    HttpRequest × Except String HttpReply :=
  let req : HttpRequest :=
    ⟨Verb.post, UrlEnum.AUTH.LOGIN, [], [],
      some [("username", username), ("password", password)]⟩
  (req, self.transport req)

/-- Modelled from the spec: BasePrivXAPI._get_search_params (base.py is
not under src/).  "A direct passthrough of caller-supplied parameters into
a query string": each supplied value appears under its parameter name and
an absent value contributes nothing. -/
def _get_search_params (offset limit : Option Int) (sortkey sortdir : Option String) :
    Dict :=
  (match offset with | some v => [("offset", toString v)] | none => [])
    ++ (match limit with | some v => [("limit", toString v)] | none => [])
    ++ (match sortkey with | some v => [("sortkey", v)] | none => [])
    ++ (match sortdir with | some v => [("sortdir", v)] | none => [])

/-- Modelled from the spec: utils.get_value (utils.py is not under src/).
It returns the given value when one is present and the supplied default
otherwise, so an absent "optional JSON body" becomes the default. -/
def get_value {α : Type} (value : Option α) (default : α) : α :=
  match value with
  | some v => v
  | none => default

/-- How the reply of the single request becomes the returned value, shared
by every PrivXAPIResponse-returning method: an exception of the transport
propagates unchanged, otherwise the envelope pairs the transport status
and payload with the method's fixed expected status. -/
def envelopeOutcome (expected : Nat) (r : Except String HttpReply) :
    Except String (Option PrivXAPIResponse) :=
  match r with
  | Except.error e => Except.error e
  | Except.ok reply => Except.ok (some (PrivXAPIResponse.mk reply.status expected reply.data))

/-- How the reply becomes the value returned by authenticate: the
exception propagates unchanged, and a success returns None (the Python
method has no return value). -/
def authenticateOutcome (r : Except String HttpReply) :
    Except String (Option PrivXAPIResponse) :=
  match r with
  | Except.error e => Except.error e
  | Except.ok _ => Except.ok none

/-- What get_user_sessions prints: the status and decoded data of the
reply when the request succeeded, nothing when the request raised (the
print statement is never reached then). -/
def printedReply (r : Except String HttpReply) : List (Nat × Dict) :=
  match r with
  | Except.error _ => []
  | Except.ok reply => [(reply.status, reply.data)]

/-- AuthAPI.authenticate: logs the API client in through the internal
authentication call of the base layer and returns no envelope (the Python
method returns None; its comment notes it should return a
PrivXAPIResponse). -/
def AuthAPI.authenticate (self : AuthAPI) (username password : String) :
    MethodResult × AuthAPI :=
  let (req, r) := _authenticate self username password
  (MethodResult.mk [req] [] (authenticateOutcome r), self)

/-- AuthAPI.get_auth_service_status: GET on the STATUS template, expected
status OK. -/
def AuthAPI.get_auth_service_status (self : AuthAPI) : MethodResult × AuthAPI :=
  let (req, r) := _http_get self UrlEnum.AUTH.STATUS [] []
  (MethodResult.mk [req] [] (envelopeOutcome HTTPStatus.OK r), self)

/-- AuthAPI.get_idp_client: GET on the IDP_CLIENT template with idp_id as
path parameter, expected status OK. -/
def AuthAPI.get_idp_client (self : AuthAPI) (idp_id : String) :
    MethodResult × AuthAPI :=
  let (req, r) := _http_get self UrlEnum.AUTH.IDP_CLIENT [("idp_id", idp_id)] []
  (MethodResult.mk [req] [] (envelopeOutcome HTTPStatus.OK r), self)

/-- AuthAPI.create_idp_client: POST on the IDP_CLIENTS template with the
client as JSON body, expected status CREATED. -/
def AuthAPI.create_idp_client (self : AuthAPI) (idp_client : Dict) :
    MethodResult × AuthAPI :=
  let (req, r) := _http_post self UrlEnum.AUTH.IDP_CLIENTS [] [] (some idp_client)
  (MethodResult.mk [req] [] (envelopeOutcome HTTPStatus.CREATED r), self)

/-- AuthAPI.update_idp_client: PUT on the IDP_CLIENT template with idp_id
as path parameter and the client as JSON body, expected status OK. -/
def AuthAPI.update_idp_client (self : AuthAPI) (idp_id : String) (idp_client : Dict) :
    MethodResult × AuthAPI :=
  let (req, r) := _http_put self UrlEnum.AUTH.IDP_CLIENT [("idp_id", idp_id)] idp_client
  (MethodResult.mk [req] [] (envelopeOutcome HTTPStatus.OK r), self)

/-- AuthAPI.delete_idp_client: DELETE on the IDP_CLIENT template with
idp_id as path parameter, expected status OK. -/
def AuthAPI.delete_idp_client (self : AuthAPI) (idp_id : String) :
    MethodResult × AuthAPI :=
  let (req, r) := _http_delete self UrlEnum.AUTH.IDP_CLIENT [("idp_id", idp_id)]
  (MethodResult.mk [req] [] (envelopeOutcome HTTPStatus.OK r), self)

/-- AuthAPI.regenerate_idp_client_config: POST on the
REGENERATE_IDP_CLIENT template with idp_id as path parameter and no body;
the source constructs the envelope with expected status OK. -/
def AuthAPI.regenerate_idp_client_config (self : AuthAPI) (idp_id : String) :
    MethodResult × AuthAPI :=
  let (req, r) := _http_post self UrlEnum.AUTH.REGENERATE_IDP_CLIENT
      [("idp_id", idp_id)] [] none
  (MethodResult.mk [req] [] (envelopeOutcome HTTPStatus.OK r), self)

/-- AuthAPI.get_user_sessions: GET on the USER_SESSIONS template with only
the user_id path parameter — the source accepts offset, limit, sort_key
and sort_dir but passes no query parameters — then prints the reply and
wraps it with expected status OK. -/
def AuthAPI.get_user_sessions (self : AuthAPI) (user_id : String)
    (offset limit : Option Int) (sort_key sort_dir : Option String) :
    MethodResult × AuthAPI :=
  let (req, r) := _http_get self UrlEnum.AUTH.USER_SESSIONS [("user_id", user_id)] []
  (MethodResult.mk [req] (printedReply r) (envelopeOutcome HTTPStatus.OK r), self)

/-- AuthAPI.get_source_sessions: GET on the SOURCE_SESSIONS template with
only the source_id path parameter — the source accepts offset, limit,
sort_key and sort_dir but passes no query parameters — expected status
OK. -/
def AuthAPI.get_source_sessions (self : AuthAPI) (source_id : String)
    (offset limit : Option Int) (sort_key sort_dir : Option String) :
    MethodResult × AuthAPI :=
  let (req, r) := _http_get self UrlEnum.AUTH.SOURCE_SESSIONS
      [("source_id", source_id)] []
  (MethodResult.mk [req] [] (envelopeOutcome HTTPStatus.OK r), self)

/-- AuthAPI.search_sessions: POST on the SEARCH_SESSIONS template with the
serialized pagination and sort arguments as query parameters and the
search payload — defaulted to the empty dictionary through get_value — as
JSON body, expected status OK. -/
def AuthAPI.search_sessions (self : AuthAPI)
    (offset limit : Option Int) (sort_key sort_dir : Option String)
    (search_payload : Option Dict) : MethodResult × AuthAPI :=
  let search_params := _get_search_params offset limit sort_key sort_dir
  let (req, r) := _http_post self UrlEnum.AUTH.SEARCH_SESSIONS [] search_params
      (some (get_value search_payload []))
  (MethodResult.mk [req] [] (envelopeOutcome HTTPStatus.OK r), self)

/-- AuthAPI.terminate_session: POST on the TERMINATE_SESSION template with
session_id as path parameter, expected status OK. -/
def AuthAPI.terminate_session (self : AuthAPI) (session_id : String) :
    MethodResult × AuthAPI :=
  let (req, r) := _http_post self UrlEnum.AUTH.TERMINATE_SESSION
      [("session_id", session_id)] [] none
  (MethodResult.mk [req] [] (envelopeOutcome HTTPStatus.OK r), self)

/-- AuthAPI.terminate_user_sessions: POST on the TERMINATE_USER_SESSIONS
template with user_id as path parameter, expected status OK. -/
def AuthAPI.terminate_user_sessions (self : AuthAPI) (user_id : String) :
    MethodResult × AuthAPI :=
  let (req, r) := _http_post self UrlEnum.AUTH.TERMINATE_USER_SESSIONS
      [("user_id", user_id)] [] none
  (MethodResult.mk [req] [] (envelopeOutcome HTTPStatus.OK r), self)

/-- AuthAPI.logout: POST on the LOGOUT template with no parameters and no
body, expected status OK. -/
def AuthAPI.logout (self : AuthAPI) : MethodResult × AuthAPI :=
  let (req, r) := _http_post self UrlEnum.AUTH.LOGOUT [] [] none
  (MethodResult.mk [req] [] (envelopeOutcome HTTPStatus.OK r), self)

/-- One call to an AuthAPI method together with its arguments. -/
inductive AuthCall
  | authenticate (username password : String)
  | get_auth_service_status
  | get_idp_client (idp_id : String)
  | create_idp_client (idp_client : Dict)
  | update_idp_client (idp_id : String) (idp_client : Dict)
  | delete_idp_client (idp_id : String)
  | regenerate_idp_client_config (idp_id : String)
  | get_user_sessions (user_id : String) (offset limit : Option Int)
      (sort_key sort_dir : Option String)
  | get_source_sessions (source_id : String) (offset limit : Option Int)
      (sort_key sort_dir : Option String)
  | search_sessions (offset limit : Option Int) (sort_key sort_dir : Option String)
      (search_payload : Option Dict)
  | terminate_session (session_id : String)
  | terminate_user_sessions (user_id : String)
  | logout
deriving DecidableEq, Repr

/-- Dispatch one call to the method it names. -/
def AuthAPI.run (self : AuthAPI) (c : AuthCall) : MethodResult × AuthAPI :=
  match c with
  | AuthCall.authenticate u p => self.authenticate u p
  | AuthCall.get_auth_service_status => self.get_auth_service_status
  | AuthCall.get_idp_client i => self.get_idp_client i
  | AuthCall.create_idp_client b => self.create_idp_client b
  | AuthCall.update_idp_client i b => self.update_idp_client i b
  | AuthCall.delete_idp_client i => self.delete_idp_client i
  | AuthCall.regenerate_idp_client_config i => self.regenerate_idp_client_config i
  | AuthCall.get_user_sessions u o l k d => self.get_user_sessions u o l k d
  | AuthCall.get_source_sessions s o l k d => self.get_source_sessions s o l k d
  | AuthCall.search_sessions o l k d p => self.search_sessions o l k d p
  | AuthCall.terminate_session s => self.terminate_session s
  | AuthCall.terminate_user_sessions u => self.terminate_user_sessions u
  | AuthCall.logout => self.logout

/-- Whether a call is to authenticate, the one method that returns no
envelope. -/
def AuthCall.isAuthenticate : AuthCall → Bool
  | AuthCall.authenticate _ _ => true
  | _ => false

/-- Whether a call is to create_idp_client. -/
def AuthCall.isCreateIdpClient : AuthCall → Bool
  | AuthCall.create_idp_client _ => true
  | _ => false

/-- Whether a call is to get_user_sessions. -/
def AuthCall.isGetUserSessions : AuthCall → Bool
  | AuthCall.get_user_sessions _ _ _ _ _ => true
  | _ => false

/-- A transport that replies 200 with an empty payload to every request. -/
def okT : Transport := fun _ => Except.ok (HttpReply.mk 200 [])

/-- A transport that replies 418 with a one-entry payload to every
request. -/
def teapotT : Transport := fun _ => Except.ok (HttpReply.mk 418 [("detail", "x")])

theorem envelopeOutcome_error_iff (expected : Nat) (r : Except String HttpReply)
    (e : String) :
    envelopeOutcome expected r = Except.error e ↔ r = Except.error e := by
  cases r <;> simp [envelopeOutcome]

theorem authenticateOutcome_error_iff (r : Except String HttpReply) (e : String) :
    authenticateOutcome r = Except.error e ↔ r = Except.error e := by
  cases r <;> simp [authenticateOutcome]

theorem envelopeOutcome_ok_expected (expected : Nat) (r : Except String HttpReply)
    (x : PrivXAPIResponse) (h : envelopeOutcome expected r = Except.ok (some x)) :
    x.expected_status = expected := by
  cases r with
  | error e => simp [envelopeOutcome] at h
  | ok reply =>
      simp only [envelopeOutcome, Except.ok.injEq, Option.some.injEq] at h
      subst h
      rfl

theorem authenticateOutcome_ne_some (r : Except String HttpReply)
    (x : PrivXAPIResponse) :
    authenticateOutcome r ≠ Except.ok (some x) := by
  cases r <;> simp [authenticateOutcome]

/-- The single request a call issues: the head of its request list. -/
def theRequest (a : AuthAPI) (c : AuthCall) : HttpRequest :=
  ((a.run c).1.requests).headI

theorem run_requests_eq (a : AuthAPI) (c : AuthCall) :
    (a.run c).1.requests = [theRequest a c] := by
  cases c <;> rfl

theorem run_outcome_eq (a : AuthAPI) (c : AuthCall) :
    (a.run c).1.outcome
      = if c.isAuthenticate
          then authenticateOutcome (a.transport (theRequest a c))
          else envelopeOutcome
            (if c.isCreateIdpClient then HTTPStatus.CREATED else HTTPStatus.OK)
            (a.transport (theRequest a c)) := by
  cases c <;> rfl

/-- C1: the claimed passthrough fails at a concrete failing input.  With
offset 5, limit 10, sort_key and sort_dir supplied, get_user_sessions and
get_source_sessions each issue their single request with an EMPTY query
string: every pagination and sort parameter is dropped. -/
theorem c1_pagination_params_dropped :
    ((AuthAPI.mk okT).get_user_sessions ("alice") (some 5) (some 10)
        (some ("expires")) (some ("ASC"))).1.requests
      = [HttpRequest.mk Verb.get UrlEnum.AUTH.USER_SESSIONS
          [("user_id", "alice")] [] none]
    ∧ ((AuthAPI.mk okT).get_source_sessions ("src1") (some 5) (some 10)
        (some ("expires")) (some ("ASC"))).1.requests
      = [HttpRequest.mk Verb.get UrlEnum.AUTH.SOURCE_SESSIONS
          [("source_id", "src1")] [] none] :=
  ⟨rfl, rfl⟩

/-- C2: authenticate returns no response envelope.  At a concrete input
its outcome on a successful exchange is Except.ok none rather than a
PrivXAPIResponse, contradicting the claim (the source itself carries a
TODO that the method should return a PrivXAPIResponse). -/
theorem c2_authenticate_returns_no_envelope :
    ((AuthAPI.mk okT).authenticate ("user") ("pass")).1.outcome = Except.ok none :=
  rfl

/-- C5: every AuthAPI method issues exactly one HTTP request to the
underlying transport per invocation — never zero and never more than
one. -/
theorem c5_exactly_one_request (c : AuthCall) (T : Transport) :
    (((AuthAPI.mk T).run c).1.requests).length = 1 := by
  cases c <;> rfl

/-- C7: each identifier-taking method issues its single request with the
operation's fixed verb and URL template, with exactly the identifier
argument substituted as the corresponding path parameter: GET for reads,
POST for regenerate/terminate, PUT for update, DELETE for delete. -/
theorem c7_path_substitution_and_verbs (T : Transport)
    (idp_id user_id source_id session_id : String) (idp_client : Dict)
    (offset limit : Option Int) (sort_key sort_dir : Option String) :
    ((AuthAPI.mk T).get_idp_client idp_id).1.requests
      = [HttpRequest.mk Verb.get UrlEnum.AUTH.IDP_CLIENT
          [("idp_id", idp_id)] [] none]
  ∧ ((AuthAPI.mk T).update_idp_client idp_id idp_client).1.requests
      = [HttpRequest.mk Verb.put UrlEnum.AUTH.IDP_CLIENT
          [("idp_id", idp_id)] [] (some idp_client)]
  ∧ ((AuthAPI.mk T).delete_idp_client idp_id).1.requests
      = [HttpRequest.mk Verb.delete UrlEnum.AUTH.IDP_CLIENT
          [("idp_id", idp_id)] [] none]
  ∧ ((AuthAPI.mk T).regenerate_idp_client_config idp_id).1.requests
      = [HttpRequest.mk Verb.post UrlEnum.AUTH.REGENERATE_IDP_CLIENT
          [("idp_id", idp_id)] [] none]
  ∧ ((AuthAPI.mk T).get_user_sessions user_id offset limit sort_key sort_dir).1.requests
      = [HttpRequest.mk Verb.get UrlEnum.AUTH.USER_SESSIONS
          [("user_id", user_id)] [] none]
  ∧ ((AuthAPI.mk T).get_source_sessions source_id offset limit sort_key sort_dir).1.requests
      = [HttpRequest.mk Verb.get UrlEnum.AUTH.SOURCE_SESSIONS
          [("source_id", source_id)] [] none]
  ∧ ((AuthAPI.mk T).terminate_session session_id).1.requests
      = [HttpRequest.mk Verb.post UrlEnum.AUTH.TERMINATE_SESSION
          [("session_id", session_id)] [] none]
  ∧ ((AuthAPI.mk T).terminate_user_sessions user_id).1.requests
      = [HttpRequest.mk Verb.post UrlEnum.AUTH.TERMINATE_USER_SESSIONS
          [("user_id", user_id)] [] none] :=
  ⟨rfl, rfl, rfl, rfl, rfl, rfl, rfl, rfl⟩

/-- C9: search_sessions sends the empty dictionary as the JSON body when
search_payload is absent, and sends a supplied dictionary unchanged; the
serialized pagination arguments form the query string either way. -/
theorem c9_search_sessions_body_default (T : Transport)
    (offset limit : Option Int) (sort_key sort_dir : Option String) (d : Dict) :
    ((AuthAPI.mk T).search_sessions offset limit sort_key sort_dir none).1.requests
      = [HttpRequest.mk Verb.post UrlEnum.AUTH.SEARCH_SESSIONS []
          (_get_search_params offset limit sort_key sort_dir) (some [])]
  ∧ ((AuthAPI.mk T).search_sessions offset limit sort_key sort_dir (some d)).1.requests
      = [HttpRequest.mk Verb.post UrlEnum.AUTH.SEARCH_SESSIONS []
          (_get_search_params offset limit sort_key sort_dir) (some d)] :=
  ⟨rfl, rfl⟩

/-- C3: for every PrivXAPIResponse-returning method (every call other than
authenticate) and every reply (status s, body d) the transport produces,
the returned envelope carries exactly that status and exactly that body,
neither modified nor locally interpreted. -/
theorem c3_status_and_body_unchanged (c : AuthCall) (s : Nat) (d : Dict)
    (T : Transport) (hT : ∀ q, T q = Except.ok (HttpReply.mk s d))
    (hc : c.isAuthenticate = false) :
    ((AuthAPI.mk T).run c).1.outcome.map (fun o => o.map (fun x => x.status))
        = Except.ok (some s)
  ∧ ((AuthAPI.mk T).run c).1.outcome.map (fun o => o.map (fun x => x.data))
        = Except.ok (some d) := by
  rw [run_outcome_eq, hc]
  simp [hT, envelopeOutcome, Except.map]

/-- Closed instance of C3: with a transport replying 418 and a one-entry
payload, logout returns an envelope with exactly that status and body. -/
theorem c3_witness :
    (((AuthAPI.mk teapotT).run AuthCall.logout).1.outcome.map
        (fun o => o.map (fun x => x.status)) = Except.ok (some 418))
  ∧ (((AuthAPI.mk teapotT).run AuthCall.logout).1.outcome.map
        (fun o => o.map (fun x => x.data)) = Except.ok (some [("detail", "x")])) :=
  c3_status_and_body_unchanged AuthCall.logout 418 [("detail", "x")] teapotT
    (fun _ => rfl) rfl

/-- C4 counterexample: regenerate_idp_client_config constructs its
envelope with expected status OK (200), not Created (201) as the claim
states, shown at a concrete input. -/
theorem c4_regenerate_expects_ok :
    ((AuthAPI.mk okT).regenerate_idp_client_config ("idp1")).1.outcome
      = Except.ok (some (PrivXAPIResponse.mk 200 HTTPStatus.OK []))
    ∧ HTTPStatus.OK ≠ HTTPStatus.CREATED :=
  ⟨rfl, by decide⟩

/-- C4 (amended): create_idp_client constructs its envelope with expected
status Created (201), and every other PrivXAPIResponse-returning method —
regenerate_idp_client_config included — constructs it with expected status
OK (200). -/
theorem c4_expected_status_fixed (c : AuthCall) (T : Transport)
    (x : PrivXAPIResponse)
    (h : ((AuthAPI.mk T).run c).1.outcome = Except.ok (some x)) :
    x.expected_status
      = if c.isCreateIdpClient then HTTPStatus.CREATED else HTTPStatus.OK := by
  rw [run_outcome_eq] at h
  by_cases ha : c.isAuthenticate
  · rw [if_pos ha] at h
    exact absurd h (authenticateOutcome_ne_some _ _)
  · rw [if_neg ha] at h
    exact envelopeOutcome_ok_expected _ _ _ h

/-- Closed instance of C4 (amended): a create_idp_client envelope under a
418-replying transport has expected status Created. -/
theorem c4_witness :
    (PrivXAPIResponse.mk 418 HTTPStatus.CREATED [("detail", "x")]).expected_status
      = if (AuthCall.create_idp_client [("name", "n")]).isCreateIdpClient
          then HTTPStatus.CREATED else HTTPStatus.OK :=
  c4_expected_status_fixed (AuthCall.create_idp_client [("name", "n")]) teapotT
    (PrivXAPIResponse.mk 418 HTTPStatus.CREATED [("detail", "x")]) rfl

/-- C6: a method call propagates an exception e to the caller exactly when
the transport raised e on the single request the call issued; no method
catches, transforms, or locally recovers, and when the call raises no
envelope is returned (the outcome is the error, not a response). -/
theorem c6_errors_propagate_unchanged (c : AuthCall) (T : Transport) (e : String) :
    ((AuthAPI.mk T).run c).1.outcome = Except.error e
      ↔ ∃ req ∈ ((AuthAPI.mk T).run c).1.requests, T req = Except.error e := by
  rw [run_outcome_eq, run_requests_eq]
  by_cases ha : c.isAuthenticate
  · rw [if_pos ha]
    simp [authenticateOutcome_error_iff]
  · rw [if_neg ha]
    simp [envelopeOutcome_error_iff]

/-- C8: no call mutates the client object or any state shared between
calls: the client after any call is the client before it, and a second
call started from the post-call client returns exactly — request trace,
printed output, outcome and resulting client — what it returns from the
original client, so its result depends only on its own arguments and its
own exchange. -/
theorem c8_no_shared_state (a : AuthAPI) (c1 c2 : AuthCall) :
    (a.run c1).2 = a ∧ ((a.run c1).2).run c2 = a.run c2 := by
  have h2 : (a.run c1).2 = a := by cases c1 <;> rfl
  exact ⟨h2, by rw [h2]⟩

/-- C10: under a transport replying (s, d), a call to get_user_sessions
writes exactly the pair (status s, data d) to standard output, and a call
to any other AuthAPI method writes nothing. -/
theorem c10_only_get_user_sessions_prints (c : AuthCall) (T : Transport)
    (s : Nat) (d : Dict) (hT : ∀ q, T q = Except.ok (HttpReply.mk s d)) :
    ((AuthAPI.mk T).run c).1.printed
      = if c.isGetUserSessions then [(s, d)] else [] := by
  cases c <;>
    simp [AuthAPI.run, AuthAPI.authenticate, AuthAPI.get_auth_service_status,
      AuthAPI.get_idp_client, AuthAPI.create_idp_client, AuthAPI.update_idp_client,
      AuthAPI.delete_idp_client, AuthAPI.regenerate_idp_client_config,
      AuthAPI.get_user_sessions, AuthAPI.get_source_sessions,
      AuthAPI.search_sessions, AuthAPI.terminate_session,
      AuthAPI.terminate_user_sessions, AuthAPI.logout,
      _http_get, _http_post, _http_put, _http_delete, _authenticate,
      printedReply, AuthCall.isGetUserSessions, hT]

/-- Closed instance of C10: with a transport replying 418 and a one-entry
payload, get_user_sessions prints exactly that status and payload. -/
theorem c10_witness :
    ((AuthAPI.mk teapotT).run
        (AuthCall.get_user_sessions ("u") none none none none)).1.printed
      = if (AuthCall.get_user_sessions ("u") none none none none).isGetUserSessions
          then [(418, [("detail", "x")])] else [] :=
  c10_only_get_user_sessions_prints
    (AuthCall.get_user_sessions ("u") none none none none) teapotT
    418 [("detail", "x")] (fun _ => rfl)

end PrivX
